import Mathlib

/-!
Shallow embedding of the task-driver layer of this repository
(client/driver: exec.go, xen.go, the java driver, an earlier revision of the
xen driver, and driver_test.go).  External effects — the process wait, shell
commands, the xenstore liveness registry, consul — enter the model as explicit
data; the completion channel and the done signal are modelled as the event
trace emitted by a handle's monitor.
-/

namespace Nomad

/-- Terminal outcome of a task (cstructs.WaitResult): exit code, signal if
killed, textual diagnostic. -/
structure WaitResult where
  exitCode : Int
  signal : Int
  errMsg : Option String
deriving DecidableEq, Repr

/-- The Executor returned by executor.Command / executor.OpenId, reduced to the
one piece of state the driver layer reads from it: its identifier. -/
structure Executor where
  id : String
deriving DecidableEq, Repr

/-- execHandle (exec.go): the executor plus the fact that `go h.run()` was
issued when the handle was built. -/
structure ExecHandleModel where
  cmd : Executor
  monitorStarted : Bool
deriving DecidableEq, Repr

/-- javaHandle (java driver): same shape as execHandle. -/
structure JavaHandleModel where
  cmd : Executor
  monitorStarted : Bool
deriving DecidableEq, Repr

/-- xenHandle (xen.go and its earlier revision): the domain name plus whether
the monitor was started. -/
structure XenHandleModel where
  domainName : String
  monitorStarted : Bool
deriving DecidableEq, Repr

/-- Primitive actions a handle's monitor performs on its two channels:
closing the done signal, writing a value to the completion channel, and
closing the completion channel. -/
inductive MonEvent (α : Type) where
  | closeDone
  | writeWait (v : α)
  | closeWait
deriving DecidableEq, Repr

/-- The sequence of values a reader drains from the completion channel after
the given monitor trace. -/
def waitWrites {α : Type} (evs : List (MonEvent α)) : List α :=
  evs.filterMap fun e =>
    match e with
    | MonEvent.writeWait v => some v
    | _ => none

/-- The value the (n+1)-st read of the completion channel returns, if any. -/
def readNth {α : Type} (evs : List (MonEvent α)) (n : Nat) : Option α :=
  (waitWrites evs)[n]?

/-- Checks that every write to the completion channel is preceded by the close
of the done signal; `seen` records whether closeDone already occurred. -/
def doneBeforeWrites {α : Type} (seen : Bool) : List (MonEvent α) → Bool
  | [] => true
  | MonEvent.closeDone :: rest => doneBeforeWrites true rest
  | MonEvent.writeWait _ :: rest => seen && doneBeforeWrites seen rest
  | MonEvent.closeWait :: rest => doneBeforeWrites seen rest

/-- execHandle.run (exec.go): wait, close done, send the WaitResult, close the
completion channel. -/
def execHandleRun (res : WaitResult) : List (MonEvent WaitResult) :=
  [MonEvent.closeDone, MonEvent.writeWait res, MonEvent.closeWait]

/-- javaHandle.run (java driver): wait, close done, send the error only when
wait returned one, close the completion channel. -/
def javaHandleRun (err : Option String) : List (MonEvent String) :=
  MonEvent.closeDone ::
    ((match err with
      | some e => [MonEvent.writeWait e]
      | none => []) ++ [MonEvent.closeWait])

/-- Outcome of one `xenstore-ls /local/domain -f` invocation: either the
command failed, or it produced a listing of (domainId, key, value) entries
(the lines matched by reXenStoreLs). -/
inductive XlsOutcome where
  | readError
  | listing (entries : List (Nat × String × String))
deriving DecidableEq, Repr

/-- xenHandle.isDomainActive (xen.go): a read failure yields true ("gross but
better than exploding"); otherwise the domain is active iff some entry has key
"name" and value equal to the handle's domain name. -/
def isDomainActive (domainName : String) (o : XlsOutcome) : Bool :=
  match o with
  | XlsOutcome.readError => true
  | XlsOutcome.listing entries =>
      entries.any fun e => e.2.1 == "name" && e.2.2 == domainName

/-- xenHandle.isDomainActive, earlier revision: a read failure panics. -/
def isDomainActiveOld (domainName : String) (o : XlsOutcome) : Except String Bool :=
  match o with
  | XlsOutcome.readError => Except.error "panic"
  | XlsOutcome.listing entries =>
      Except.ok (entries.any fun e => e.2.1 == "name" && e.2.2 == domainName)

/-- Poll interval of the xen monitor loop (time.Sleep(5 * time.Second)). -/
def xenPollIntervalSeconds : Nat := 5

/-- xenHandle.run (xen.go): poll the registry each interval until the domain
is gone, then close done and close the completion channel without writing a
value.  The argument lists the successive poll outcomes; `none` means the
supplied outcomes were exhausted with the monitor still polling. -/
def xenHandleRun (domainName : String) : List XlsOutcome → Option (List (MonEvent WaitResult))
  | [] => none
  | o :: rest =>
      if isDomainActive domainName o then xenHandleRun domainName rest
      else some [MonEvent.closeDone, MonEvent.closeWait]

/-- xenHandle.run, earlier revision: same loop, except a registry read failure
panics (isDomainActiveOld), crashing the monitor. -/
def xenHandleRunOld (domainName : String) : List XlsOutcome → Except String (Option (List (MonEvent WaitResult)))
  | [] => Except.ok none
  | o :: rest =>
      match isDomainActiveOld domainName o with
      | Except.error e => Except.error e
      | Except.ok true => xenHandleRunOld domainName rest
      | Except.ok false => Except.ok (some [MonEvent.closeDone, MonEvent.closeWait])

/-- Checks that the monitor trace ends by closing the completion channel. -/
def endsWithCloseWait {α : Type} : List (MonEvent α) → Bool
  | [] => false
  | [MonEvent.closeWait] => true
  | [_] => false
  | _ :: rest => endsWithCloseWait rest

/-- Whether a fallible computation succeeded. -/
def exceptIsOk {ε α : Type} : Except ε α → Bool
  | Except.ok _ => true
  | Except.error _ => false

/-- Actions a kill() call performs against the outside world: the graceful
shutdown request (cmd.Shutdown), the forced termination (cmd.ForceStop, or
the xl destroy command), and the consul tree deletion done by the xen kill. -/
inductive KillAction where
  | shutdown
  | forceStop
  | consulDelete
deriving DecidableEq, Repr

/-- Grace period kill() races against the done signal
(time.After(5 * time.Second)). -/
def killGracePeriodSeconds : Nat := 5

/-- External circumstances of one kill() call: when (seconds after the call)
the done signal becomes ready, if ever, and what ForceStop would return. -/
structure KillEnv where
  doneClosesAt : Option Nat
  forceStopErr : Option String
deriving DecidableEq, Repr

/-- Whether the done signal is ready before the grace-period timer fires (a
tie is resolved in favour of the done signal; in the source the select picks
nondeterministically, and no claim depends on the tie). -/
def doneWithinGrace (t : Option Nat) : Bool :=
  match t with
  | some u => u ≤ killGracePeriodSeconds
  | none => false

/-- execHandle.Kill (exec.go): Shutdown, then select on doneCh versus the
5-second timer; on timeout ForceStop and surface its error. -/
def execHandleKill (e : KillEnv) : List KillAction × Option String :=
  if doneWithinGrace e.doneClosesAt then ([KillAction.shutdown], none)
  else ([KillAction.shutdown, KillAction.forceStop], e.forceStopErr)

/-- javaHandle.Kill (java driver): identical protocol to execHandle.Kill. -/
def javaHandleKill (e : KillEnv) : List KillAction × Option String :=
  if doneWithinGrace e.doneClosesAt then ([KillAction.shutdown], none)
  else ([KillAction.shutdown, KillAction.forceStop], e.forceStopErr)

/-- xenHandle.Kill (xen.go): runs xl destroy unconditionally (its error is
discarded), deletes the handle's consul tree, and returns nil. -/
def xenHandleKill (_ : KillEnv) : List KillAction × Option String :=
  ([KillAction.forceStop, KillAction.consulDelete], none)

/-- Outcomes of calling the same handle's kill() n times in a row under the
same external circumstances (kill holds no mutable state of its own). -/
def killRepeat (k : KillEnv → List KillAction × Option String) (e : KillEnv) (n : Nat) :
    List (List KillAction × Option String) :=
  List.replicate n (k e)

/-- Modelled from the spec: executor.OpenId, the Executor's
locate(identifier), is not under src/.  Per the spec it "reconstructs a
handle to an already-running process purely from its identifier, without
re-spawning; fails with a distinguishable error if the identifier no longer
resolves to a live process".  `live` lists the identifiers that currently
resolve to live processes owned by this agent. -/
def OpenId (live : List String) (id : String) : Except String Executor :=
  if live.contains id then Except.ok (Executor.mk id) else Except.error "not found"

/-- ExecDriver.Open (exec.go): OpenId, wrapping its failure, then a handle
with the monitor started. -/
def execOpen (live : List String) (handleID : String) : Except String ExecHandleModel :=
  match OpenId live handleID with
  | Except.ok cmd => Except.ok (ExecHandleModel.mk cmd true)
  | Except.error e => Except.error ("failed to open ID " ++ handleID ++ ": " ++ e)

/-- JavaDriver.Open (java driver): same shape as ExecDriver.Open. -/
def javaOpen (live : List String) (handleID : String) : Except String JavaHandleModel :=
  match OpenId live handleID with
  | Except.ok cmd => Except.ok (JavaHandleModel.mk cmd true)
  | Except.error e => Except.error ("failed to open ID " ++ handleID ++ ": " ++ e)

/-- XenDriver.Open (xen.go and its earlier revision): unconditionally an
error, regardless of whether the identifier resolves. -/
def xenOpen (_ : List String) (_ : String) : Except String XenHandleModel :=
  Except.error "open not implemented"

/-- External outcomes consumed by ExecDriver.Start: artifact fetch, resource
limiting, task-directory binding, process start, and the spawned process's
identifier. -/
structure ExecStartEnv where
  artifactErr : Option String
  limitErr : Option String
  configureErr : Option String
  startErr : Option String
  execId : String
deriving DecidableEq, Repr

/-- ExecDriver.Start (exec.go): command lookup, task-directory lookup,
optional artifact fetch, resource limits, directory binding, process start;
the first failing step's error is returned, and only full success yields a
handle with the monitor started. -/
def execStart (config : List (String × String)) (taskDirPresent : Bool)
    (env : ExecStartEnv) : Except String ExecHandleModel :=
  match config.lookup "command" with
  | none => Except.error "missing command for exec driver"
  | some command =>
    if command = "" then Except.error "missing command for exec driver"
    else if taskDirPresent = false then Except.error "Could not find task directory"
    else
      let artifactStep : Option String :=
        match config.lookup "artifact_source" with
        | some s => if s = "" then none else env.artifactErr
        | none => none
      match artifactStep with
      | some e => Except.error e
      | none =>
        match env.limitErr with
        | some e => Except.error ("failed to constrain resources: " ++ e)
        | none =>
          match env.configureErr with
          | some e => Except.error ("failed to configure task directory: " ++ e)
          | none =>
            match env.startErr with
            | some e => Except.error ("failed to start command: " ++ e)
            | none => Except.ok (ExecHandleModel.mk (Executor.mk env.execId) true)

/-- External outcomes consumed by XenDriver.Start (xen.go): template parse,
stat of the base image, qemu-img create, config-file create, template
execution, and the xl create launch command. -/
structure XenStartEnv where
  templateParseOk : Bool
  baseImageStatErr : Option String
  qemuImgErr : Option String
  cfgCreateErr : Option String
  templateExecErr : Option String
  xlCreateErr : Option String
deriving DecidableEq, Repr

/-- XenDriver.Start (xen.go): template, base image path check, qcow image
build (stat, disk size, qemu-img), task dir, config file, template execution,
consul put (error ignored in the source), then xl create; an xl create
failure is returned and no handle is produced. -/
def xenStart (baseImagePath : String) (diskMB : Nat) (taskDirPresent : Bool)
    (allocId : String) (env : XenStartEnv) : Except String XenHandleModel :=
  if env.templateParseOk = false then Except.error "Couldn't load config file template"
  else if baseImagePath = "" then Except.error "Base image path must be specified."
  else
    match env.baseImageStatErr with
    | some e => Except.error e
    | none =>
      if diskMB = 0 then Except.error "Disk resources must be greater than 0"
      else
        match env.qemuImgErr with
        | some e => Except.error e
        | none =>
          if taskDirPresent = false then Except.error "No local task dir"
          else
            match env.cfgCreateErr with
            | some e => Except.error e
            | none =>
              match env.templateExecErr with
              | some e => Except.error e
              | none =>
                match env.xlCreateErr with
                | some e => Except.error e
                | none => Except.ok (XenHandleModel.mk ("nomad-" ++ allocId) true)

/-- External outcomes consumed by the earlier revision of XenDriver.Start
(no qcow step existed yet).  xlCreateErr records whether the xl create launch
command failed; that revision discards the result of xlCmd.Run(). -/
structure XenStartEnvOld where
  templateParseOk : Bool
  cfgCreateErr : Option String
  templateExecErr : Option String
  xlCreateErr : Option String
deriving DecidableEq, Repr

/-- XenDriver.Start, earlier revision: template, task dir, config file,
template execution, then xlCmd.Run() with its error discarded — the handle is
returned and its monitor started regardless of whether xl create failed. -/
def xenStartOld (taskDirPresent : Bool) (allocId : String) (env : XenStartEnvOld) :
    Except String XenHandleModel :=
  if env.templateParseOk = false then Except.error "Couldn't load config file template"
  else if taskDirPresent = false then Except.error "No local task dir"
  else
    match env.cfgCreateErr with
    | some e => Except.error e
    | none =>
      match env.templateExecErr with
      | some e => Except.error e
      | none => Except.ok (XenHandleModel.mk ("nomad-" ++ allocId) true)

/-- Argument vector contributed by the task configuration in ExecDriver.Start:
the whole "args" value is appended as one element whenever the key is present
(an empty value included). -/
def execStartArgs (config : List (String × String)) : List String :=
  match config.lookup "args" with
  | some argRaw => [argRaw]
  | none => []

/-- Args field of javaDriverConfig after mapstructure.WeakDecode: the "args"
value, or the empty string when the key is absent. -/
def javaConfigArgs (config : List (String × String)) : String :=
  (config.lookup "args").getD ""

/-- Argument vector built by JavaDriver.Start: optional jvm options, then
-jar and the staged jar path, then the whole "args" value as one element when
it is nonempty. -/
def javaStartArgs (jvmOpts : String) (jarPath : String) (argsVal : String) : List String :=
  (if jvmOpts = "" then [] else [jvmOpts]) ++ ["-jar", jarPath] ++
    (if argsVal = "" then [] else [argsVal])

/-- execHandle.ID (exec.go): the executor's identifier; the error value of
cmd.ID() is discarded and the string returned normally. -/
def execHandleID (h : ExecHandleModel) : String := h.cmd.id

/-- javaHandle.ID (java driver): same as execHandle.ID. -/
def javaHandleID (h : JavaHandleModel) : String := h.cmd.id

/-- xenHandle.ID (xen.go): the domain name. -/
def xenHandleID (h : XenHandleModel) : String := h.domainName

/-- xenHandle.ID, earlier revision: unconditionally panics. -/
def xenHandleIDOld (_ : XenHandleModel) : Except String String :=
  Except.error "panic: fuck"

/-- Host probe surface of ExecDriver.Fingerprint: operating system and
effective uid. -/
structure ExecProbe where
  goos : String
  euid : Nat
deriving DecidableEq, Repr

/-- ExecDriver.Fingerprint (exec.go): available exactly when on linux as
root; never an error.  Result is (available, error, attributes written). -/
def execFingerprint (p : ExecProbe) : Except String (Bool × Option String × List (String × String)) :=
  if p.goos ≠ "linux" then Except.ok (false, none, [])
  else if p.euid ≠ 0 then Except.ok (false, none, [])
  else Except.ok (true, none, [("driver.exec", "1")])

/-- Whether the first list is an initial segment of the second. -/
def matchesLeading : List Char → List Char → Bool
  | [], _ => true
  | _ :: _, [] => false
  | p :: ps, c :: cs => p = c && matchesLeading ps cs

/-- Drops a leading occurrence of p from s (strings.TrimPrefix). -/
def dropLeadingStr (p s : String) : String :=
  if matchesLeading p.toList s.toList then String.mk (s.toList.drop p.toList.length) else s

/-- Splits a character list at every occurrence of sep (strings.Split). -/
def splitOnChar (sep : Char) : List Char → List (List Char)
  | [] => [[]]
  | c :: rest =>
      let r := splitOnChar sep rest
      if c = sep then [] :: r
      else (c :: r.headD []) :: r.tail

/-- Splits a string at newlines (strings.Split with separator newline). -/
def splitLines (s : String) : List String :=
  (splitOnChar '\n' s.toList).map String.mk

/-- Trims double-quote characters from both ends (strings.Trim with cutset
consisting of the double quote). -/
def trimQuotes (s : String) : String :=
  String.mk (((s.toList.dropWhile fun c => c = '"').reverse.dropWhile fun c => c = '"').reverse)

/-- Host probe surface of JavaDriver.Fingerprint: operating system, effective
uid, whether the version command failed, and its stdout/stderr text. -/
structure JavaProbe where
  goos : String
  euid : Nat
  versionCmdFails : Bool
  stdout : String
  stderr : String
deriving DecidableEq, Repr

/-- The infoString JavaDriver.Fingerprint parses: stderr when nonempty,
otherwise stdout. -/
def javaInfoString (p : JavaProbe) : String :=
  if p.stderr = "" then p.stdout else p.stderr

/-- JavaDriver.Fingerprint (java driver): unavailable without error when not
root on linux, when the version command fails, or when it produced no output;
otherwise the output is split on newlines and elements 0, 1 and 2 are read —
an output of fewer than three lines makes the indexing panic. -/
def javaFingerprint (p : JavaProbe) : Except String (Bool × Option String × List (String × String)) :=
  if p.goos = "linux" ∧ p.euid ≠ 0 then Except.ok (false, none, [])
  else if p.versionCmdFails then Except.ok (false, none, [])
  else
    if javaInfoString p = "" then Except.ok (false, none, [])
    else
      let info := splitLines (javaInfoString p)
      if info.length < 3 then Except.error "panic: index out of range"
      else
        let versionString := trimQuotes (dropLeadingStr "java version " (info.headD ""))
        Except.ok (true, none,
          [("driver.java", "1"),
           ("driver.java.version", versionString),
           ("driver.java.runtime", info.getD 1 ""),
           ("driver.java.vm", info.getD 2 "")])

/-- Host probe surface of XenDriver.Fingerprint: whether the xl info command
failed, and the key/value pairs parsed from its output. -/
structure XenProbe where
  xlInfoFails : Bool
  xlInfo : List (String × String)
deriving DecidableEq, Repr

/-- XenDriver.Fingerprint (xen.go, identical in the earlier revision): a
failing xl info yields unavailable without error; a missing xen_version key
yields an explicit error; otherwise the driver.xen attributes are written.
The numeric dom0 attributes (fingerprintDom0) are elided: their floating
point formatting is outside this embedding and that path cannot fail — every
parse error there is discarded in the source. -/
def xenFingerprint (p : XenProbe) : Except String (Bool × Option String × List (String × String)) :=
  if p.xlInfoFails then Except.ok (false, none, [])
  else
    match p.xlInfo.lookup "xen_version" with
    | none => Except.ok (false, some "Unable to determine Xen version", [])
    | some _ =>
        Except.ok (true, none,
          ("driver.xen", "1") :: p.xlInfo.map fun kv => ("driver.xen." ++ kv.1, kv.2))

/-- A named network port (structs.Port). -/
structure Port where
  label : String
  value : Nat
deriving DecidableEq, Repr

/-- A network resource entry (structs.NetworkResource): address plus reserved
and dynamically assigned ports. -/
structure NetworkResource where
  ip : String
  reservedPorts : List Port
  dynamicPorts : List Port
deriving DecidableEq, Repr

/-- Resource request (structs.Resources). -/
structure Resources where
  cpu : Nat
  memoryMB : Nat
  diskMB : Nat
  networks : List NetworkResource
deriving DecidableEq, Repr

/-- Task specification (structs.Task), reduced to the fields the driver layer
reads. -/
structure TaskSpec where
  name : String
  config : List (String × String)
  env : List (String × String)
  meta : List (String × String)
  resources : Resources
deriving DecidableEq, Repr

/-- Upper-cases a string character by character (strings.ToUpper on the
ASCII metadata keys). -/
def toUpperStr (s : String) : String :=
  String.mk (s.toList.map Char.toUpper)

/-- Modelled from the spec: TaskEnvironmentVariables, the environment-builder
collaborator, is not under src/; its behavior is fixed by the expected map of
TestDriver_TaskEnvironmentVariables (src/client/driver/driver_test.go):
NOMAD_CPU_LIMIT and NOMAD_MEMORY_LIMIT from the resources, NOMAD_IP and one
NOMAD_PORT_label entry per reserved and dynamic port of each network,
NOMAD_META_KEY (upper-cased key) per metadata pair, plus the task's own
environment pairs. -/
def TaskEnvironmentVariables (task : TaskSpec) : List (String × String) :=
  [("NOMAD_CPU_LIMIT", toString task.resources.cpu),
   ("NOMAD_MEMORY_LIMIT", toString task.resources.memoryMB)]
  ++ (task.resources.networks.flatMap fun n =>
        ("NOMAD_IP", n.ip) ::
          ((n.reservedPorts ++ n.dynamicPorts).map fun p =>
            ("NOMAD_PORT_" ++ p.label, toString p.value)))
  ++ (task.meta.map fun kv => ("NOMAD_META_" ++ toUpperStr kv.1, kv.2))
  ++ task.env

/-- basicResources (driver_test.go): CPU 250, MemoryMB 256, one network with
reserved port main=12345 and dynamic port HTTP. -/
def basicResources : Resources :=
  Resources.mk 250 256 0
    [NetworkResource.mk "0.0.0.0" [Port.mk "main" 12345] [Port.mk "HTTP" 0]]

/-- The scenario task of claim C9: basicResources, no config, environment or
metadata. -/
def c9Task : TaskSpec :=
  TaskSpec.mk "c9" [] [] [] basicResources

/-- The task of TestDriver_TaskEnvironmentVariables. -/
def testEnvTask : TaskSpec :=
  TaskSpec.mk "test"
    []
    [("HELLO", "world"), ("lorem", "ipsum")]
    [("chocolate", "cake"), ("strawberry", "icecream")]
    (Resources.mk 1000 500 0
      [NetworkResource.mk "1.2.3.4"
        [Port.mk "one" 80, Port.mk "two" 443, Port.mk "three" 8080, Port.mk "four" 12345]
        [Port.mk "admin" 8081, Port.mk "web" 8086]])

/-- Every terminating run of the xen monitor emits exactly the trace
closeDone, closeWait. -/
theorem xenHandleRun_trace (dn : String) :
    ∀ (polls : List XlsOutcome) (tr : List (MonEvent WaitResult)),
      xenHandleRun dn polls = some tr → tr = [MonEvent.closeDone, MonEvent.closeWait] := by
  intro polls
  induction polls with
  | nil =>
      intro tr h
      simp [xenHandleRun] at h
  | cons o rest ih =>
      intro tr h
      by_cases hb : isDomainActive dn o = true
      · rw [xenHandleRun, if_pos hb] at h
        exact ih tr h
      · rw [xenHandleRun, if_neg hb] at h
        exact (Option.some_inj.mp h).symm

/-- The environment model reproduces the expected map of
TestDriver_TaskEnvironmentVariables on the test's task. -/
theorem taskEnvironmentVariables_matches_test :
    (TaskEnvironmentVariables testEnvTask).lookup "NOMAD_CPU_LIMIT" = some "1000" ∧
    (TaskEnvironmentVariables testEnvTask).lookup "NOMAD_MEMORY_LIMIT" = some "500" ∧
    (TaskEnvironmentVariables testEnvTask).lookup "NOMAD_IP" = some "1.2.3.4" ∧
    (TaskEnvironmentVariables testEnvTask).lookup "NOMAD_PORT_one" = some "80" ∧
    (TaskEnvironmentVariables testEnvTask).lookup "NOMAD_PORT_two" = some "443" ∧
    (TaskEnvironmentVariables testEnvTask).lookup "NOMAD_PORT_three" = some "8080" ∧
    (TaskEnvironmentVariables testEnvTask).lookup "NOMAD_PORT_four" = some "12345" ∧
    (TaskEnvironmentVariables testEnvTask).lookup "NOMAD_PORT_admin" = some "8081" ∧
    (TaskEnvironmentVariables testEnvTask).lookup "NOMAD_PORT_web" = some "8086" ∧
    (TaskEnvironmentVariables testEnvTask).lookup "NOMAD_META_CHOCOLATE" = some "cake" ∧
    (TaskEnvironmentVariables testEnvTask).lookup "NOMAD_META_STRAWBERRY" = some "icecream" ∧
    (TaskEnvironmentVariables testEnvTask).lookup "HELLO" = some "world" ∧
    (TaskEnvironmentVariables testEnvTask).lookup "lorem" = some "ipsum" ∧
    (TaskEnvironmentVariables testEnvTask).length = 13 := by
  decide

/-- C1 (amended): one run of any handle's monitor writes at most one value to
the completion channel and then closes it — exactly one WaitResult for the
fork-exec handle, one error value for the managed-runtime handle exactly when
wait returned an error, and no value for the hypervisor handle — with the done
signal closed no later than any write, and a second read of the channel never
returns a second value. -/
theorem c1_monitor_at_most_one :
    (∀ res : WaitResult,
        waitWrites (execHandleRun res) = [res] ∧
        doneBeforeWrites false (execHandleRun res) = true ∧
        endsWithCloseWait (execHandleRun res) = true ∧
        readNth (execHandleRun res) 1 = none) ∧
    (∀ err : Option String,
        (waitWrites (javaHandleRun err)).length ≤ 1 ∧
        (waitWrites (javaHandleRun err) = [] ↔ err = none) ∧
        doneBeforeWrites false (javaHandleRun err) = true ∧
        endsWithCloseWait (javaHandleRun err) = true ∧
        readNth (javaHandleRun err) 1 = none) ∧
    (∀ (dn : String) (polls : List XlsOutcome) (tr : List (MonEvent WaitResult)),
        xenHandleRun dn polls = some tr →
          waitWrites tr = [] ∧
          doneBeforeWrites false tr = true ∧
          endsWithCloseWait tr = true ∧
          readNth tr 0 = none) := by
  refine ⟨?_, ?_, ?_⟩
  · intro res
    exact ⟨rfl, rfl, rfl, rfl⟩
  · intro err
    cases err with
    | none => exact ⟨by decide, by simp [javaHandleRun, waitWrites], rfl, rfl, rfl⟩
    | some e =>
        refine ⟨?_, ?_, rfl, rfl, rfl⟩
        · simp [javaHandleRun, waitWrites]
        · simp [javaHandleRun, waitWrites]
  · intro dn polls tr h
    have htr := xenHandleRun_trace dn polls tr h
    subst htr
    exact ⟨rfl, rfl, rfl, rfl⟩

/-- C1 counterexample: a terminating run of the hypervisor handle's monitor
closes the completion channel without ever writing a value, so the channel
yields zero WaitResults, not exactly one. -/
theorem c1_counterexample :
    xenHandleRun "nomad-a" [XlsOutcome.listing []] =
      some [MonEvent.closeDone, MonEvent.closeWait] ∧
    waitWrites [(MonEvent.closeDone : MonEvent WaitResult), MonEvent.closeWait] = [] ∧
    readNth [(MonEvent.closeDone : MonEvent WaitResult), MonEvent.closeWait] 0 = none :=
  ⟨rfl, rfl, rfl⟩

/-- Witness for C1 at a concrete hypervisor monitor run. -/
theorem c1_monitor_at_most_one_witness :
    waitWrites [(MonEvent.closeDone : MonEvent WaitResult), MonEvent.closeWait] = [] ∧
    doneBeforeWrites false [(MonEvent.closeDone : MonEvent WaitResult), MonEvent.closeWait] = true :=
  ⟨(c1_monitor_at_most_one.2.2 "nomad-b" [XlsOutcome.listing []]
      [MonEvent.closeDone, MonEvent.closeWait] rfl).1,
   (c1_monitor_at_most_one.2.2 "nomad-b" [XlsOutcome.listing []]
      [MonEvent.closeDone, MonEvent.closeWait] rfl).2.1⟩

/-- C2 (amended): the fork-exec and managed-runtime kill() follow the
escalation protocol — first the graceful shutdown request, then a race of the
fixed 5-second grace period against the done signal, with forceStop issued
and its error surfaced when the grace period elapses first, and success when
the done signal wins; the hypervisor kill() does not follow the protocol. -/
theorem c2_kill_escalation :
    (∀ e : KillEnv,
        (execHandleKill e).1.head? = some KillAction.shutdown ∧
        (doneWithinGrace e.doneClosesAt = true →
          execHandleKill e = ([KillAction.shutdown], none)) ∧
        (doneWithinGrace e.doneClosesAt = false →
          execHandleKill e = ([KillAction.shutdown, KillAction.forceStop], e.forceStopErr))) ∧
    (∀ e : KillEnv,
        (javaHandleKill e).1.head? = some KillAction.shutdown ∧
        (doneWithinGrace e.doneClosesAt = true →
          javaHandleKill e = ([KillAction.shutdown], none)) ∧
        (doneWithinGrace e.doneClosesAt = false →
          javaHandleKill e = ([KillAction.shutdown, KillAction.forceStop], e.forceStopErr))) := by
  constructor <;> intro e <;> cases h : doneWithinGrace e.doneClosesAt <;>
    simp [execHandleKill, javaHandleKill, h]

/-- C2 counterexample: the hypervisor kill() issues the forced destroy first
and never sends a graceful shutdown request, even when the done signal is
already ready. -/
theorem c2_counterexample :
    (xenHandleKill (KillEnv.mk (some 0) none)).1.head? = some KillAction.forceStop ∧
    ¬ (xenHandleKill (KillEnv.mk (some 0) none)).1.head? = some KillAction.shutdown ∧
    doneWithinGrace (some 0) = true := by
  decide

/-- Witness for C2 on both sides of the race. -/
theorem c2_kill_escalation_witness :
    execHandleKill (KillEnv.mk (some 0) none) = ([KillAction.shutdown], none) ∧
    javaHandleKill (KillEnv.mk none (some "force failed")) =
      ([KillAction.shutdown, KillAction.forceStop], some "force failed") :=
  ⟨(c2_kill_escalation.1 (KillEnv.mk (some 0) none)).2.1 rfl,
   (c2_kill_escalation.2 (KillEnv.mk none (some "force failed"))).2.2 rfl⟩

/-- C3 (amended): on a handle whose task has already exited (done signal
ready at once), each of N ≥ 1 kill() calls returns success and never hangs;
the fork-exec and managed-runtime kills never invoke forceStop, while the
hypervisor kill issues its forced destroy command on every call yet still
returns success. -/
theorem c3_kill_idempotent :
    ∀ (n : Nat) (fs : Option String), 0 < n →
      (∀ r ∈ killRepeat execHandleKill (KillEnv.mk (some 0) fs) n,
          r.2 = none ∧ KillAction.forceStop ∉ r.1) ∧
      (∀ r ∈ killRepeat javaHandleKill (KillEnv.mk (some 0) fs) n,
          r.2 = none ∧ KillAction.forceStop ∉ r.1) ∧
      (∀ r ∈ killRepeat xenHandleKill (KillEnv.mk (some 0) fs) n,
          r.2 = none ∧ KillAction.forceStop ∈ r.1) := by
  intro n fs _
  refine ⟨?_, ?_, ?_⟩ <;> intro r hr <;>
    rw [List.eq_of_mem_replicate hr] <;>
      simp [execHandleKill, javaHandleKill, xenHandleKill, doneWithinGrace,
        killGracePeriodSeconds]

/-- C3 counterexample: one kill() on a hypervisor handle whose task already
exited still invokes the forced destroy command. -/
theorem c3_counterexample :
    KillAction.forceStop ∈ (xenHandleKill (KillEnv.mk (some 0) none)).1 ∧
    doneWithinGrace (some 0) = true := by
  decide

/-- Witness for C3 with two repeated kill() calls. -/
theorem c3_kill_idempotent_witness :
    (execHandleKill (KillEnv.mk (some 0) (some "eperm"))).2 = none ∧
    KillAction.forceStop ∉ (execHandleKill (KillEnv.mk (some 0) (some "eperm"))).1 :=
  (c3_kill_idempotent 2 (some "eperm") (by decide)).1
    (execHandleKill (KillEnv.mk (some 0) (some "eperm")))
    (List.mem_replicate.mpr ⟨by decide, rfl⟩)

/-- C4 (amended): the fork-exec and managed-runtime Open reattach to a live
identifier, returning a handle for exactly that identifier with its monitor
started, and fail with a distinguishable not-found error on an identifier
that no longer resolves — never a false Running handle; the hypervisor Open
is unimplemented and returns an error even for a live identifier. -/
theorem c4_open_reattach :
    (∀ (live : List String) (id : String),
        (id ∈ live →
          execOpen live id = Except.ok (ExecHandleModel.mk (Executor.mk id) true)) ∧
        (id ∉ live →
          execOpen live id = Except.error ("failed to open ID " ++ id ++ ": " ++ "not found"))) ∧
    (∀ (live : List String) (id : String),
        (id ∈ live →
          javaOpen live id = Except.ok (JavaHandleModel.mk (Executor.mk id) true)) ∧
        (id ∉ live →
          javaOpen live id = Except.error ("failed to open ID " ++ id ++ ": " ++ "not found"))) ∧
    (∀ (live : List String) (id : String),
        xenOpen live id = Except.error "open not implemented") := by
  refine ⟨?_, ?_, ?_⟩
  · intro live id
    constructor <;> intro h <;> simp [execOpen, OpenId, h]
  · intro live id
    constructor <;> intro h <;> simp [javaOpen, OpenId, h]
  · intro live id
    rfl

/-- C4 counterexample: the hypervisor Open returns an error on an identifier
that does resolve to a live domain, instead of a reattached handle. -/
theorem c4_counterexample :
    "nomad-live" ∈ (["nomad-live"] : List String) ∧
    xenOpen ["nomad-live"] "nomad-live" = Except.error "open not implemented" :=
  ⟨List.mem_singleton.mpr rfl, rfl⟩

/-- Witness for C4: reattach to a live identifier and fail on a dead one. -/
theorem c4_open_reattach_witness :
    execOpen ["77"] "77" = Except.ok (ExecHandleModel.mk (Executor.mk "77") true) ∧
    javaOpen ["77"] "88" = Except.error ("failed to open ID " ++ "88" ++ ": " ++ "not found") :=
  ⟨(c4_open_reattach.1 ["77"] "77").1 (by decide),
   (c4_open_reattach.2.1 ["77"] "88").2 (by decide)⟩

/-- C5 evaluated at the failing input: with the xl create launch command
failing, the earlier revision of the xen Start still returns a successful
handle with its monitor started, while the current xen Start and the exec
Start return the launch error. -/
theorem c5_launch_failure_eval :
    xenStartOld true "abc123"
        (XenStartEnvOld.mk true none none (some "xl create failed")) =
      Except.ok (XenHandleModel.mk "nomad-abc123" true) ∧
    xenStart "/images/base.qcow2" 1024 true "abc123"
        (XenStartEnv.mk true none none none none (some "xl create failed")) =
      Except.error "xl create failed" ∧
    execStart [("command", "/bin/true")] true
        (ExecStartEnv.mk none none none (some "exec format error") "9") =
      Except.error ("failed to start command: " ++ "exec format error") :=
  ⟨rfl, rfl, rfl⟩

/-- C6 evaluated at the failing input: the current hypervisor monitor treats
a registry read failure as still-active and keeps polling (staying Running),
while the earlier revision panics on the same read failure instead of
retrying. -/
theorem c6_registry_read_failure_eval :
    isDomainActive "nomad-a" XlsOutcome.readError = true ∧
    xenHandleRun "nomad-a" [XlsOutcome.readError, XlsOutcome.listing []] =
      some [MonEvent.closeDone, MonEvent.closeWait] ∧
    xenHandleRun "nomad-a"
        [XlsOutcome.readError, XlsOutcome.listing [(1, "name", "nomad-a")]] = none ∧
    isDomainActiveOld "nomad-a" XlsOutcome.readError = Except.error "panic" ∧
    xenHandleRunOld "nomad-a" [XlsOutcome.readError, XlsOutcome.listing []] =
      Except.error "panic" :=
  ⟨rfl, rfl, rfl, rfl, rfl⟩

/-- C7 evaluated at the failing input: the earlier xen handle's ID panics,
while the exec, java and current xen handles return their identifier
normally, and the exec identifier round-trips through Open. -/
theorem c7_handle_id_eval :
    xenHandleIDOld (XenHandleModel.mk "nomad-abc123" true) = Except.error "panic: fuck" ∧
    execHandleID (ExecHandleModel.mk (Executor.mk "4242") true) = "4242" ∧
    javaHandleID (JavaHandleModel.mk (Executor.mk "4343") true) = "4343" ∧
    xenHandleID (XenHandleModel.mk "nomad-abc123" true) = "nomad-abc123" ∧
    execOpen ["4242"] (execHandleID (ExecHandleModel.mk (Executor.mk "4242") true)) =
      Except.ok (ExecHandleModel.mk (Executor.mk "4242") true) :=
  ⟨rfl, rfl, rfl, rfl, rfl⟩

/-- C8 (amended): the fork-exec fingerprint always returns normally, and the
managed-runtime and hypervisor fingerprints degrade to unavailable without
error on a transient probe failure, with the hypervisor's missing xen_version
the one probe outcome yielding an explicit error distinct from unavailable —
but the managed-runtime fingerprint does not return normally on every probe
outcome: it fails exactly when the version command succeeded with nonempty
output of fewer than three lines. -/
theorem c8_fingerprint_degrades :
    (∀ p : ExecProbe, exceptIsOk (execFingerprint p) = true) ∧
    (∀ p : JavaProbe, p.versionCmdFails = true →
        javaFingerprint p = Except.ok (false, none, [])) ∧
    (∀ p : JavaProbe, exceptIsOk (javaFingerprint p) = false →
        javaInfoString p ≠ "" ∧ (splitLines (javaInfoString p)).length < 3) ∧
    (∀ p : XenProbe, p.xlInfoFails = true →
        xenFingerprint p = Except.ok (false, none, [])) ∧
    (∀ p : XenProbe, p.xlInfoFails = false → p.xlInfo.lookup "xen_version" = none →
        xenFingerprint p = Except.ok (false, some "Unable to determine Xen version", [])) ∧
    (∀ p : XenProbe, exceptIsOk (xenFingerprint p) = true) := by
  refine ⟨?_, ?_, ?_, ?_, ?_, ?_⟩
  · intro p
    unfold execFingerprint
    split
    · rfl
    · split <;> rfl
  · intro p h
    by_cases hg : p.goos = "linux" ∧ p.euid ≠ 0
    · simp [javaFingerprint, hg]
    · simp [javaFingerprint, hg, h]
  · intro p h
    by_cases hg : p.goos = "linux" ∧ p.euid ≠ 0
    · simp [javaFingerprint, hg, exceptIsOk] at h
    · by_cases hc : p.versionCmdFails
      · simp [javaFingerprint, hg, hc, exceptIsOk] at h
      · by_cases hi : javaInfoString p = ""
        · simp [javaFingerprint, hg, hc, hi, exceptIsOk] at h
        · by_cases hl : (splitLines (javaInfoString p)).length < 3
          · exact ⟨hi, hl⟩
          · simp [javaFingerprint, hg, hc, hi, hl, exceptIsOk] at h
  · intro p h
    simp [xenFingerprint, h]
  · intro p h hl
    simp [xenFingerprint, h, hl]
  · intro p
    unfold xenFingerprint
    split
    · rfl
    · split <;> rfl

/-- C8 counterexample: a successful version probe whose output is a single
line makes the managed-runtime fingerprint panic instead of returning. -/
theorem c8_counterexample :
    javaFingerprint (JavaProbe.mk "linux" 0 false "" "java version 1.8.0") =
      Except.error "panic: index out of range" := by
  rfl

/-- Witness for C8 at concrete probes. -/
theorem c8_fingerprint_degrades_witness :
    javaFingerprint (JavaProbe.mk "darwin" 501 true "" "") = Except.ok (false, none, []) ∧
    xenFingerprint (XenProbe.mk true []) = Except.ok (false, none, []) ∧
    xenFingerprint (XenProbe.mk false [("release", "4.4")]) =
      Except.ok (false, some "Unable to determine Xen version", []) :=
  ⟨c8_fingerprint_degrades.2.1 (JavaProbe.mk "darwin" 501 true "" "") rfl,
   c8_fingerprint_degrades.2.2.2.1 (XenProbe.mk true []) rfl,
   c8_fingerprint_degrades.2.2.2.2.1 (XenProbe.mk false [("release", "4.4")]) rfl rfl⟩

/-- C9 (amended): for the basicResources request (CPU 250, MemoryMB 256,
reserved port main=12345, dynamic port HTTP) the task environment contains
NOMAD_CPU_LIMIT=250, NOMAD_MEMORY_LIMIT=256, NOMAD_PORT_main=12345 and an
entry NOMAD_PORT_HTTP carrying the dynamic port's assigned value. -/
theorem c9_task_environment :
    (TaskEnvironmentVariables c9Task).lookup "NOMAD_CPU_LIMIT" = some "250" ∧
    (TaskEnvironmentVariables c9Task).lookup "NOMAD_MEMORY_LIMIT" = some "256" ∧
    (TaskEnvironmentVariables c9Task).lookup "NOMAD_PORT_main" = some "12345" ∧
    ((TaskEnvironmentVariables c9Task).lookup "NOMAD_PORT_HTTP").isSome = true := by
  decide

/-- C9 counterexample: the environment holds no variables under the
unprefixed names the claim uses. -/
theorem c9_counterexample :
    (TaskEnvironmentVariables c9Task).lookup "CPU_LIMIT" = none ∧
    (TaskEnvironmentVariables c9Task).lookup "MEMORY_LIMIT" = none ∧
    (TaskEnvironmentVariables c9Task).lookup "PORT_main" = none ∧
    (TaskEnvironmentVariables c9Task).lookup "PORT_HTTP" = none := by
  decide

/-- C10 (amended): both backends pass the whole "args" value as a single
argument-vector element, never splitting it; an absent key contributes no
argument in either backend, and an empty value contributes none in the
managed-runtime backend, but in the fork-exec backend a present empty value
contributes one empty argument. -/
theorem c10_args_single_element :
    (∀ (config : List (String × String)) (v : String),
        config.lookup "args" = some v → execStartArgs config = [v]) ∧
    (∀ config : List (String × String),
        config.lookup "args" = none → execStartArgs config = []) ∧
    (∀ config : List (String × String),
        config.lookup "args" = none → javaConfigArgs config = "") ∧
    (∀ (jvm jar v : String), v ≠ "" →
        javaStartArgs jvm jar v = javaStartArgs jvm jar "" ++ [v]) ∧
    (∀ (jvm jar : String),
        javaStartArgs jvm jar "" = (if jvm = "" then [] else [jvm]) ++ ["-jar", jar]) := by
  refine ⟨?_, ?_, ?_, ?_, ?_⟩
  · intro config v h
    simp [execStartArgs, h]
  · intro config h
    simp [execStartArgs, h]
  · intro config h
    simp [javaConfigArgs, h]
  · intro jvm jar v h
    simp [javaStartArgs, h]
  · intro jvm jar
    simp [javaStartArgs]

/-- C10 counterexample: in the fork-exec backend a present-but-empty "args"
value contributes one empty-string argument, not none. -/
theorem c10_counterexample :
    (([("args", "")] : List (String × String)).lookup "args" = some "") ∧
    execStartArgs [("args", "")] = [""] ∧
    execStartArgs [("args", "")] ≠ [] := by
  decide

/-- Witness for C10: a whitespace-containing value stays a single element. -/
theorem c10_args_single_element_witness :
    execStartArgs [("args", "-a -b")] = ["-a -b"] ∧
    javaStartArgs "-Xmx256m" "local/app.jar" "run fast" =
      javaStartArgs "-Xmx256m" "local/app.jar" "" ++ ["run fast"] :=
  ⟨c10_args_single_element.1 [("args", "-a -b")] "-a -b" rfl,
   c10_args_single_element.2.2.2.1 "-Xmx256m" "local/app.jar" "run fast" (by decide)⟩

end Nomad
